import Mathlib

/-!
Verification development for the Mikoshi Sentinel action-verification
pipeline.  The definitions below are a shallow embedding of the JavaScript
sources:

* `src/lib/sentinel.js`        — `Sentinel.verify` pipeline (steps 2–5)
* `src/lib/audit.js`           — `AuditLogger`
* `src/lib/policies/rate-limit.js`      — `rateLimit` evaluator
* `src/lib/policies/system-commands.js` — `systemCommands` evaluator
* `src/lib/intent-verifier.js` — `IntentVerifier`, `heuristicScore`,
  `extractIntentKeywords`

Modelling conventions:

* JavaScript numbers are rationals (`ℚ`); `Date.now()` timestamps are
  milliseconds (`Nat`).
* A JavaScript exception is `Except.error msg` carrying `err.message`.
* `action.args` is the recursive JSON-like value `JsValue`;
  `JSON.stringify` is modelled by `jsonStringify` (compact) and
  `jsonStringify2` (two-space indent), exact on the ASCII string /
  integer fragment that the development evaluates; non-integral number
  formatting and `\uXXXX` escapes of rare control characters are outside
  the rational model and are noted where they would apply.
* The stateful rate limiter's module-level `Map` is the function
  `RateStore`; an absent key and the source's `has`/`set []`
  initialisation are both the empty history.
* `Sentinel.verify` is modelled from action normalisation onwards: every
  claim under study cites lines after `parseAction`, so the normalized
  `Action` is the model's input.  The wall-clock `elapsed` diagnostic and
  the audit side effects (`auditLog.log`, console/file sinks) do not feed
  back into the verdict and are modelled separately (`AuditLogger.log`).
-/

namespace Mikoshi

/-- Recursive JSON-like JavaScript value: the shape of `action.args`
(string / number / boolean / null / array / object). -/
inductive JsValue where
  | str (s : String)
  | num (n : ℚ)
  | boolean (b : Bool)
  | null
  | arr (items : List JsValue)
  | obj (fields : List (String × JsValue))

/-- JSON string escaping as done by `JSON.stringify` on the printable
ASCII fragment: backslash, double quote and the common control
characters.  (Other control characters would print as `\uXXXX`; they do
not occur in this development.) -/
def jsonEscapeChar (c : Char) : String :=
  if c = '\\' then "\\\\"
  else if c = '"' then "\\\""
  else if c = '\n' then "\\n"
  else if c = '\r' then "\\r"
  else if c = '\t' then "\\t"
  else String.singleton c

/-- Quote and escape a string as a JSON string literal. -/
def jsonQuote (s : String) : String :=
  "\"" ++ String.join (s.toList.map jsonEscapeChar) ++ "\""

/-- Decimal digits of `num / den` (long division), `fuel` digits at most;
used to print non-integral numbers the way `JSON.stringify` prints the
exact decimal fractions this development uses. -/
def decimalDigits (fuel : Nat) (num den : Nat) : String :=
  match fuel with
  | 0 => ""
  | fuel + 1 =>
    if num = 0 then ""
    else
      let q := num * 10 / den
      let r := num * 10 % den
      toString q ++ decimalDigits fuel r den

/-- Number formatting of `JSON.stringify`, exact for integers and for
terminating decimal fractions (17 digits of long division otherwise). -/
def jsNumToString (q : ℚ) : String :=
  if q.den = 1 then toString q.num
  else
    let sign := if q.num < 0 then "-" else ""
    let n := q.num.natAbs
    sign ++ toString (n / q.den) ++ "." ++ decimalDigits 17 (n % q.den) q.den

mutual

/-- Compact `JSON.stringify(value)` (no spacing), as used for the
rate-limit fingerprint ``​`${action.tool}:${JSON.stringify(action.args)}`​``. -/
def jsonStringify : JsValue → String
  | .str s => jsonQuote s
  | .num n => jsNumToString n
  | .boolean b => cond b "true" "false"
  | .null => "null"
  | .arr items => "[" ++ String.intercalate "," (jsonStringifyList items) ++ "]"
  | .obj fields =>
    "\x7b" ++ String.intercalate "," (jsonStringifyFields fields) ++ "\x7d"

/-- Elementwise serialisation of a JSON array's items. -/
def jsonStringifyList : List JsValue → List String
  | [] => []
  | v :: vs => jsonStringify v :: jsonStringifyList vs

/-- Elementwise serialisation of a JSON object's `"key":value` members. -/
def jsonStringifyFields : List (String × JsValue) → List String
  | [] => []
  | (k, v) :: fs => (jsonQuote k ++ ":" ++ jsonStringify v) :: jsonStringifyFields fs

end

mutual

/-- Indented `JSON.stringify(value, null, 2)` at nesting level `lvl`, as
used when building the intent-verification prompt. -/
def jsonStringify2 : Nat → JsValue → String
  | _, .str s => jsonQuote s
  | _, .num n => jsNumToString n
  | _, .boolean b => cond b "true" "false"
  | _, .null => "null"
  | _, .arr [] => "[]"
  | lvl, .arr items =>
    let pad := String.join (List.replicate (lvl + 1) "  ")
    "[\n" ++
      String.intercalate ",\n" ((jsonStringify2List (lvl + 1) items).map (pad ++ ·)) ++
      "\n" ++ String.join (List.replicate lvl "  ") ++ "]"
  | _, .obj [] => "\x7b\x7d"
  | lvl, .obj fields =>
    let pad := String.join (List.replicate (lvl + 1) "  ")
    "\x7b\n" ++
      String.intercalate ",\n" ((jsonStringify2Fields (lvl + 1) fields).map (pad ++ ·)) ++
      "\n" ++ String.join (List.replicate lvl "  ") ++ "\x7d"

/-- Items of an indented JSON array. -/
def jsonStringify2List : Nat → List JsValue → List String
  | _, [] => []
  | lvl, v :: vs => jsonStringify2 lvl v :: jsonStringify2List lvl vs

/-- Members (`"key": value`) of an indented JSON object. -/
def jsonStringify2Fields : Nat → List (String × JsValue) → List String
  | _, [] => []
  | lvl, (k, v) :: fs =>
    (jsonQuote k ++ ": " ++ jsonStringify2 lvl v) :: jsonStringify2Fields lvl fs

end

/-- Conversation message (`{role, content}`); roles are the literal
strings `"user"` / `"assistant"` / `"system"` as in the source. -/
structure Message where
  role : String
  content : String
deriving DecidableEq

/-- Action types produced by `classifyAction` in `src/lib/action-parser.js`. -/
inductive ActionType where
  | system_command
  | file_operation
  | network_request
  | browser_action
  | tool_call
deriving DecidableEq

/-- String rendering of an `ActionType`, matching the literal strings the
JavaScript pipeline carries (used by template interpolation). -/
def ActionType.render : ActionType → String
  | .system_command => "system_command"
  | .file_operation => "file_operation"
  | .network_request => "network_request"
  | .browser_action => "browser_action"
  | .tool_call => "tool_call"

/-- Metadata extracted by `parseAction` (`src/lib/action-parser.js`
lines 115–138): deduplicated URL/path/encoding sets, the flattened text
and the list of leaf strings. -/
structure ActionMetadata where
  urls : List String := []
  paths : List String := []
  encodings : List String := []
  fullText : String := ""
  allStrings : List String := []
deriving DecidableEq

/-- Normalized action (`parseAction`'s return value, minus the wall-clock
timestamp, which no claim under study reads). -/
structure Action where
  type : ActionType := .tool_call
  tool : String := "unknown"
  args : JsValue := .obj []
  source : String := "assistant"
  conversationContext : List Message := []
  metadata : ActionMetadata := {}

/-- Per-key rate-limit overrides carried in `context.rateLimits`; a `none`
field is an absent key (object spread only overrides present keys). -/
structure RateOverrides where
  maxCallsPerMinute : Option Nat := none
  maxCallsPerSecond : Option Nat := none
  maxIdenticalCalls : Option Nat := none
  burstWindow : Option Nat := none
  burstMax : Option Nat := none

/-- Verification context (the caller-supplied configuration bag), with
the fields the modelled components read. -/
structure Context where
  sessionId : Option String := none
  userId : Option String := none
  rateLimits : RateOverrides := {}

/-- Result of one policy evaluation: `{pass, reason, severity}`. -/
structure PolicyResult where
  pass : Bool
  reason : String
  severity : String
deriving DecidableEq

/-- A failing policy result tagged with the producing policy's name. -/
structure Violation where
  policy : String
  reason : String
  severity : String
deriving DecidableEq

/-- Intent verification result.  The heuristic path's diagnostic
`matchedKeywords` / `totalKeywords` fields are not read by any downstream
code and are not modelled; `llmError` is the failure reason attached on
the heuristic-fallback-after-LLM-error path. -/
structure IntentResult where
  confidence : ℚ
  aligned : Bool
  method : String
  reason : String
  llmError : Option String := none
deriving DecidableEq

/-- Verdict of one `Sentinel.verify` call (the `elapsed` diagnostic and
the echoed action summary are not modelled; no claim reads them). -/
structure Verdict where
  allowed : Bool
  confidence : ℚ
  violations : List Violation
  intent : Option IntentResult
  policyResults : List (String × PolicyResult)
deriving DecidableEq

/-! ### Audit logger (`src/lib/audit.js`) -/

/-- Constructor options of `AuditLogger` (only the capacity is relevant
to the claims; sinks are out-of-scope collaborators). -/
structure AuditOptions where
  maxEntries : Option Nat := none

/-- An audit record: unique id, ISO timestamp, embedded verdict.  The id
and timestamp are produced by `Date.now()` / `Math.random()` and are
inputs of the model. -/
structure AuditRecord where
  id : String
  timestamp : String
  verdict : Verdict
deriving DecidableEq

/-- In-memory state of `AuditLogger`. -/
structure AuditLogger where
  entries : List AuditRecord := []
  maxEntries : Nat := 10000

/-- Constructor semantics `this.maxEntries = options.maxEntries || 10000`
(`src/lib/audit.js` line 14): absent or `0` falls back to 10000. -/
def AuditLogger.new (options : AuditOptions) : AuditLogger :=
  { entries := []
    maxEntries :=
      match options.maxEntries with
      | some n => if n = 0 then 10000 else n
      | none => 10000 }

/-- Append semantics of `AuditLogger.log` (`src/lib/audit.js`
lines 28–40): push the record, then trim to the most recent
`maxEntries` via `entries.slice(-maxEntries)`.  JavaScript's
`slice(-0)` is `slice(0)` (no trim), hence the explicit zero case. -/
def AuditLogger.log (st : AuditLogger) (record : AuditRecord) : AuditLogger :=
  let es := st.entries ++ [record]
  { st with
    entries :=
      if es.length > st.maxEntries then
        if st.maxEntries = 0 then es else es.drop (es.length - st.maxEntries)
      else es }

/-! ### Rate limiter (`src/lib/policies/rate-limit.js`) -/

/-- One entry of a per-key call history: `{timestamp, actionKey}`. -/
structure RateEntry where
  timestamp : Nat
  actionKey : String
deriving DecidableEq

/-- The module-level `callHistory` map, modelled as a total function with
empty-history default (a key the `Map` lacks is initialised to `[]`
before use, which is observationally the same). -/
def RateStore : Type := String → List RateEntry

/-- Empty store: no key has any history. -/
def RateStore.empty : RateStore := fun _ => []

/-- Point update of the store at one key. -/
def RateStore.set (store : RateStore) (key : String) (h : List RateEntry) : RateStore :=
  fun k => if k = key then h else store k

/-- The effective limits `{...DEFAULT_LIMITS, ...(context.rateLimits || {})}`. -/
structure RateLimits where
  maxCallsPerMinute : Nat
  maxCallsPerSecond : Nat
  maxIdenticalCalls : Nat
  burstWindow : Nat
  burstMax : Nat
deriving DecidableEq

/-- Defaults `DEFAULT_LIMITS` of `src/lib/policies/rate-limit.js` lines 9–15
merged with the context's overrides (spread: a present key overrides
even when falsy, an absent key keeps the default). -/
def mergeLimits (o : RateOverrides) : RateLimits :=
  { maxCallsPerMinute := o.maxCallsPerMinute.getD 30
    maxCallsPerSecond := o.maxCallsPerSecond.getD 5
    maxIdenticalCalls := o.maxIdenticalCalls.getD 3
    burstWindow := o.burstWindow.getD 1000
    burstMax := o.burstMax.getD 10 }

/-- JavaScript `a || b` on an optional string: an absent or empty string
is falsy and falls through. -/
def jsOrString (a : Option String) (b : String) : String :=
  match a with
  | some s => if s = "" then b else s
  | none => b

/-- Rate-limit key `context.sessionId || context.userId || 'default'`. -/
def rateKey (ctx : Context) : String :=
  jsOrString ctx.sessionId (jsOrString ctx.userId "default")

/-- The `rateLimit` evaluator (`src/lib/policies/rate-limit.js`
lines 17–80) with the mutable history made explicit: takes and returns
the store, plus the current `Date.now()` value.  The in-place
`history.shift()` pruning persists on every branch; the current call is
appended only on the passing branch. -/
def rateLimit (action : Action) (ctx : Context) (store : RateStore) (now : Nat) :
    PolicyResult × RateStore :=
  let limits := mergeLimits ctx.rateLimits
  let key := rateKey ctx
  let history := store key
  let pruned := history.dropWhile (fun h => now - h.timestamp > 60000)
  if pruned.length ≥ limits.maxCallsPerMinute then
    ({ pass := false
       reason := "Rate limit exceeded: " ++ toString pruned.length ++
         " calls in last minute (max: " ++ toString limits.maxCallsPerMinute ++ ")"
       severity := "high" }, store.set key pruned)
  else
    let lastSecond := pruned.filter (fun h => now - h.timestamp < 1000)
    if lastSecond.length ≥ limits.maxCallsPerSecond then
      ({ pass := false
         reason := "Rate limit exceeded: " ++ toString lastSecond.length ++
           " calls in last second (max: " ++ toString limits.maxCallsPerSecond ++ ")"
         severity := "high" }, store.set key pruned)
    else
      let actionKey := action.tool ++ ":" ++ jsonStringify action.args
      let recentIdentical := pruned.filter
        (fun h => h.actionKey = actionKey ∧ now - h.timestamp < 10000)
      if recentIdentical.length ≥ limits.maxIdenticalCalls then
        ({ pass := false
           reason := "Repeated identical action detected (" ++
             toString (recentIdentical.length + 1) ++ " times in 10s)"
           severity := "medium" }, store.set key pruned)
      else
        let burstList := pruned.filter (fun h => now - h.timestamp < limits.burstWindow)
        if burstList.length ≥ limits.burstMax then
          ({ pass := false
             reason := "Burst rate exceeded: " ++ toString burstList.length ++
               " calls in " ++ toString limits.burstWindow ++ "ms"
             severity := "high" }, store.set key pruned)
        else
          ({ pass := true, reason := "Within rate limits", severity := "none" },
           store.set key (pruned ++ [{ timestamp := now, actionKey := actionKey }]))

/-- Reset `rateLimit.reset` (`src/lib/policies/rate-limit.js` line 85):
`callHistory.clear()`. -/
def rateLimitReset (_store : RateStore) : RateStore := RateStore.empty

/-! ### Regular expressions

Pattern-based evaluators test JavaScript regular expressions against the
flattened text.  The engine below (Brzozowski derivatives) covers the
constructs the source patterns use: literals, character classes, `.`,
`*`, `+`, `?`, alternation, `$`-anchoring and a trailing `\b`.  `test`
semantics (match anywhere) is `reTest`; `/i` patterns lower-case the text
and are written with lower-case literals. -/

/-- ASCII lower-casing of one character (the fragment of JavaScript
`toLowerCase` this development exercises). -/
def lowerChar (c : Char) : Char :=
  if 'A' ≤ c ∧ c ≤ 'Z' then Char.ofNat (c.toNat + 32) else c

/-- ASCII `String.prototype.toLowerCase()`. -/
def jsToLower (s : String) : String := String.mk (s.toList.map lowerChar)

/-- Regular-expression abstract syntax: empty word, character class,
concatenation, alternation, Kleene star. -/
inductive Regex where
  | eps
  | cls (p : Char → Bool)
  | seq (a b : Regex)
  | alt (a b : Regex)
  | star (a : Regex)

/-- Class matching nothing (the failing regex). -/
def Regex.fail : Regex := .cls fun _ => false

/-- Does the regex accept the empty word? -/
def Regex.nullable : Regex → Bool
  | .eps => true
  | .cls _ => false
  | .seq a b => a.nullable && b.nullable
  | .alt a b => a.nullable || b.nullable
  | .star _ => true

/-- Brzozowski derivative with respect to one character. -/
def Regex.deriv : Regex → Char → Regex
  | .eps, _ => Regex.fail
  | .cls p, c => if p c then .eps else Regex.fail
  | .seq a b, c =>
    if a.nullable then .alt (.seq (a.deriv c) b) (b.deriv c) else .seq (a.deriv c) b
  | .alt a b, c => .alt (a.deriv c) (b.deriv c)
  | .star a, c => .seq (a.deriv c) (.star a)

/-- Does some prefix of the character list match the regex? -/
def Regex.matchesPre : Regex → List Char → Bool
  | r, [] => r.nullable
  | r, c :: cs => r.nullable || (r.deriv c).matchesPre cs

/-- Does the whole character list match the regex? -/
def Regex.matchesAll : Regex → List Char → Bool
  | r, [] => r.nullable
  | r, c :: cs => (r.deriv c).matchesAll cs

/-- Single literal character. -/
def rchar (c : Char) : Regex := .cls (· = c)

/-- Literal string. -/
def rstr (s : String) : Regex := s.toList.foldr (fun c r => .seq (rchar c) r) .eps

/-- Concatenation of a pattern list. -/
def rcat (rs : List Regex) : Regex := rs.foldr .seq .eps

/-- Alternation of a non-empty pattern list. -/
def raltL (rs : List Regex) : Regex := rs.foldr .alt Regex.fail

/-- JavaScript `\s` (whitespace). -/
def rws : Regex := .cls Char.isWhitespace

/-- JavaScript `.` (anything but line terminators). -/
def rdot : Regex :=
  .cls fun c => c != '\n' && c != '\r' && c != '\u2028' && c != '\u2029'

/-- Repetition `+` (one or more). -/
def rplus (r : Regex) : Regex := .seq r (.star r)

/-- Option `?` (zero or one). -/
def ropt (r : Regex) : Regex := .alt r .eps

/-- Class `[a-z]`. -/
def razl : Regex := .cls fun c => 'a' ≤ c && c ≤ 'z'

/-- Class `[0-7]`. -/
def r07 : Regex := .cls fun c => '0' ≤ c && c ≤ '7'

/-- JavaScript `\w` membership (for `\b` boundaries). -/
def isWordChar (c : Char) : Bool :=
  ('a' ≤ c && c ≤ 'z') || ('A' ≤ c && c ≤ 'Z') || ('0' ≤ c && c ≤ '9') || c = '_'

/-- Semantics of `pattern.test(text)`: a match may start at any position. -/
def reTest (r : Regex) (s : String) : Bool :=
  s.toList.tails.any fun suf => r.matchesPre suf

/-- Case-insensitive `test` (`/…/i`): lower-case the text, patterns are
written with lower-case literals. -/
def reTestI (r : Regex) (s : String) : Bool := reTest r (jsToLower s)

/-- Case-insensitive `test` of a `$`-anchored pattern `/…$/i`: the match
must extend to the end of the text. -/
def reTestEndI (r : Regex) (s : String) : Bool :=
  (jsToLower s).toList.tails.any fun suf => r.matchesAll suf

/-- Case-insensitive `test` of a pattern ending in `\b`: the match is
followed by a non-word character or by the end of the text. -/
def reTestWordI (r : Regex) (s : String) : Bool :=
  (jsToLower s).toList.tails.any fun suf =>
    (Regex.seq r (.cls fun c => !isWordChar c)).matchesPre suf || r.matchesAll suf

/-- One source pattern: the JavaScript literal's rendering (used in
`reason` interpolation) together with its `test` function. -/
structure RePattern where
  src : String
  test : String → Bool

/-! ### System-commands policy (`src/lib/policies/system-commands.js`) -/

/-- Pattern table `DESTRUCTIVE_COMMANDS` (lines 8–20). -/
def DESTRUCTIVE_COMMANDS : List RePattern := [
  -- /rm\s+(-[a-z]*f[a-z]*\s+)?(-[a-z]*r[a-z]*\s+)?\//i
  { src := "/rm\\s+(-[a-z]*f[a-z]*\\s+)?(-[a-z]*r[a-z]*\\s+)?\\//i"
    test := reTestI (rcat [rstr "rm", rplus rws,
      ropt (rcat [rchar '-', .star razl, rchar 'f', .star razl, rplus rws]),
      ropt (rcat [rchar '-', .star razl, rchar 'r', .star razl, rplus rws]),
      rchar '/']) },
  -- /rm\s+(-[a-z]*r[a-z]*\s+)?(-[a-z]*f[a-z]*\s+)?\//i
  { src := "/rm\\s+(-[a-z]*r[a-z]*\\s+)?(-[a-z]*f[a-z]*\\s+)?\\//i"
    test := reTestI (rcat [rstr "rm", rplus rws,
      ropt (rcat [rchar '-', .star razl, rchar 'r', .star razl, rplus rws]),
      ropt (rcat [rchar '-', .star razl, rchar 'f', .star razl, rplus rws]),
      rchar '/']) },
  -- /rm\s+-rf\s/i
  { src := "/rm\\s+-rf\\s/i"
    test := reTestI (rcat [rstr "rm", rplus rws, rstr "-rf", rws]) },
  -- /mkfs\./i
  { src := "/mkfs\\./i", test := reTestI (rstr "mkfs.") },
  -- /dd\s+if=.*of=\/dev\//i
  { src := "/dd\\s+if=.*of=\\/dev\\//i"
    test := reTestI (rcat [rstr "dd", rplus rws, rstr "if=", .star rdot, rstr "of=/dev/"]) },
  -- /shutdown/i
  { src := "/shutdown/i", test := reTestI (rstr "shutdown") },
  -- /reboot/i
  { src := "/reboot/i", test := reTestI (rstr "reboot") },
  -- /halt\b/i
  { src := "/halt\\b/i", test := reTestWordI (rstr "halt") },
  -- /poweroff/i
  { src := "/poweroff/i", test := reTestI (rstr "poweroff") },
  -- /init\s+[06]/i
  { src := "/init\\s+[06]/i"
    test := reTestI (rcat [rstr "init", rplus rws, .cls fun c => c = '0' || c = '6']) },
  -- /systemctl\s+(poweroff|reboot|halt)/i
  { src := "/systemctl\\s+(poweroff|reboot|halt)/i"
    test := reTestI (rcat [rstr "systemctl", rplus rws,
      raltL [rstr "poweroff", rstr "reboot", rstr "halt"]]) }]

/-- Pattern table `PERMISSION_COMMANDS` (lines 22–28); the first two
patterns are case-sensitive. -/
def PERMISSION_COMMANDS : List RePattern := [
  -- /chmod\s+777/
  { src := "/chmod\\s+777/"
    test := reTest (rcat [rstr "chmod", rplus rws, rstr "777"]) },
  -- /chmod\s+666/
  { src := "/chmod\\s+666/"
    test := reTest (rcat [rstr "chmod", rplus rws, rstr "666"]) },
  -- /chmod\s+[0-7]*s/i
  { src := "/chmod\\s+[0-7]*s/i"
    test := reTestI (rcat [rstr "chmod", rplus rws, .star r07, rchar 's']) },
  -- /chmod\s+a\+[rwx]/i
  { src := "/chmod\\s+a\\+[rwx]/i"
    test := reTestI (rcat [rstr "chmod", rplus rws, rstr "a+",
      .cls fun c => c = 'r' || c = 'w' || c = 'x']) },
  -- /chattr\s/i
  { src := "/chattr\\s/i", test := reTestI (rcat [rstr "chattr", rws]) }]

/-- Pattern table `PIPE_EXECUTION` (lines 30–39). -/
def PIPE_EXECUTION : List RePattern := [
  -- /curl\s.*\|\s*(ba)?sh/i
  { src := "/curl\\s.*\\|\\s*(ba)?sh/i"
    test := reTestI (rcat [rstr "curl", rws, .star rdot, rchar '|', .star rws,
      ropt (rstr "ba"), rstr "sh"]) },
  -- /wget\s.*\|\s*(ba)?sh/i
  { src := "/wget\\s.*\\|\\s*(ba)?sh/i"
    test := reTestI (rcat [rstr "wget", rws, .star rdot, rchar '|', .star rws,
      ropt (rstr "ba"), rstr "sh"]) },
  -- /curl\s.*\|\s*python/i
  { src := "/curl\\s.*\\|\\s*python/i"
    test := reTestI (rcat [rstr "curl", rws, .star rdot, rchar '|', .star rws,
      rstr "python"]) },
  -- /curl\s.*\|\s*perl/i
  { src := "/curl\\s.*\\|\\s*perl/i"
    test := reTestI (rcat [rstr "curl", rws, .star rdot, rchar '|', .star rws,
      rstr "perl"]) },
  -- /curl\s.*\|\s*ruby/i
  { src := "/curl\\s.*\\|\\s*ruby/i"
    test := reTestI (rcat [rstr "curl", rws, .star rdot, rchar '|', .star rws,
      rstr "ruby"]) },
  -- /wget\s.*-O\s*-\s*\|/i
  { src := "/wget\\s.*-O\\s*-\\s*\\|/i"
    test := reTestI (rcat [rstr "wget", rws, .star rdot, rstr "-o", .star rws,
      rchar '-', .star rws, rchar '|']) },
  -- /\|\s*bash\s*$/i
  { src := "/\\|\\s*bash\\s*$/i"
    test := reTestEndI (rcat [rchar '|', .star rws, rstr "bash", .star rws]) },
  -- /\|\s*sh\s*$/i
  { src := "/\\|\\s*sh\\s*$/i"
    test := reTestEndI (rcat [rchar '|', .star rws, rstr "sh", .star rws]) }]

/-- Pattern table `REVERSE_SHELL` (lines 41–51). -/
def REVERSE_SHELL : List RePattern := [
  -- /\/dev\/tcp\//i
  { src := "/\\/dev\\/tcp\\//i", test := reTestI (rstr "/dev/tcp/") },
  -- /bash\s+-i\s+>&/i
  { src := "/bash\\s+-i\\s+>&/i"
    test := reTestI (rcat [rstr "bash", rplus rws, rstr "-i", rplus rws, rstr ">&"]) },
  -- /nc\s+.*-e\s+\/bin/i
  { src := "/nc\\s+.*-e\\s+\\/bin/i"
    test := reTestI (rcat [rstr "nc", rplus rws, .star rdot, rstr "-e", rplus rws,
      rstr "/bin"]) },
  -- /ncat\s+.*-e\s+\/bin/i
  { src := "/ncat\\s+.*-e\\s+\\/bin/i"
    test := reTestI (rcat [rstr "ncat", rplus rws, .star rdot, rstr "-e", rplus rws,
      rstr "/bin"]) },
  -- /python.*socket.*connect/i
  { src := "/python.*socket.*connect/i"
    test := reTestI (rcat [rstr "python", .star rdot, rstr "socket", .star rdot,
      rstr "connect"]) },
  -- /perl.*socket.*INET/i
  { src := "/perl.*socket.*INET/i"
    test := reTestI (rcat [rstr "perl", .star rdot, rstr "socket", .star rdot,
      rstr "inet"]) },
  -- /ruby.*TCPSocket/i
  { src := "/ruby.*TCPSocket/i"
    test := reTestI (rcat [rstr "ruby", .star rdot, rstr "tcpsocket"]) },
  -- /php.*fsockopen/i
  { src := "/php.*fsockopen/i"
    test := reTestI (rcat [rstr "php", .star rdot, rstr "fsockopen"]) },
  -- /mkfifo/i
  { src := "/mkfifo/i", test := reTestI (rstr "mkfifo") }]

/-- Pattern table `FORK_BOMB` (lines 53–57); the first two patterns are
case-sensitive. -/
def FORK_BOMB : List RePattern := [
  -- /:\(\)\{\s*:\|:&\s*\};:/   (classic fork bomb)
  { src := "/:\\(\\)\\\x7b\\s*:\\|:&\\s*\\\x7d;:/"
    test := reTest (rcat [rstr ":()", rchar '\x7b', .star rws, rstr ":|:&", .star rws,
      rchar '\x7d', rstr ";:"]) },
  -- /\.\/\s*&\s*\.\//
  { src := "/\\.\\/\\s*&\\s*\\.\\//"
    test := reTest (rcat [rstr "./", .star rws, rchar '&', .star rws, rstr "./"]) },
  -- /while\s*true.*fork/i
  { src := "/while\\s*true.*fork/i"
    test := reTestI (rcat [rstr "while", .star rws, rstr "true", .star rdot,
      rstr "fork"]) }]

/-- Pattern table `HISTORY_TAMPERING` (lines 59–64). -/
def HISTORY_TAMPERING : List RePattern := [
  -- /history\s+-c/i
  { src := "/history\\s+-c/i"
    test := reTestI (rcat [rstr "history", rplus rws, rstr "-c"]) },
  -- /unset\s+HISTFILE/i
  { src := "/unset\\s+HISTFILE/i"
    test := reTestI (rcat [rstr "unset", rplus rws, rstr "histfile"]) },
  -- /export\s+HISTSIZE=0/i
  { src := "/export\\s+HISTSIZE=0/i"
    test := reTestI (rcat [rstr "export", rplus rws, rstr "histsize=0"]) },
  -- /shred.*\.bash_history/i
  { src := "/shred.*\\.bash_history/i"
    test := reTestI (rcat [rstr "shred", .star rdot, rstr ".bash_history"]) }]

/-- One entry of the `allChecks` list: a pattern table with its label and
severity. -/
structure PatternCheck where
  patterns : List RePattern
  label : String
  severity : String

/-- The `allChecks` list of `systemCommands` (lines 74–81). -/
def sysAllChecks : List PatternCheck := [
  { patterns := DESTRUCTIVE_COMMANDS, label := "Destructive command", severity := "critical" },
  { patterns := PERMISSION_COMMANDS, label := "Dangerous permission change", severity := "high" },
  { patterns := PIPE_EXECUTION, label := "Pipe-to-shell execution", severity := "critical" },
  { patterns := REVERSE_SHELL, label := "Reverse shell attempt", severity := "critical" },
  { patterns := FORK_BOMB, label := "Fork bomb detected", severity := "critical" },
  { patterns := HISTORY_TAMPERING, label := "History tampering", severity := "high" }]

/-- First pattern of a table matching the text, if any. -/
def firstPatternHit : List RePattern → String → Option RePattern
  | [], _ => none
  | p :: ps, t => if p.test t then some p else firstPatternHit ps t

/-- First `(label, pattern source, severity)` hit over the check tables. -/
def runChecks : List PatternCheck → String → Option (String × String × String)
  | [], _ => none
  | c :: cs, t =>
    match firstPatternHit c.patterns t with
    | some p => some (c.label, p.src, c.severity)
    | none => runChecks cs t

/-- The `systemCommands` evaluator (`src/lib/policies/system-commands.js`
lines 66–96).  Note the shape of the type guard: an action whose type is
neither `system_command` nor `tool_call` is passed early only when its
flattened text is empty; otherwise the pattern checks run on the text
regardless of the type. -/
def systemCommands (action : Action) (_ctx : Context) : PolicyResult :=
  let text := action.metadata.fullText
  if (action.type ≠ .system_command ∧ action.type ≠ .tool_call) ∧ text = "" then
    { pass := true, reason := "Not a system command", severity := "none" }
  else
    match runChecks sysAllChecks text with
    | some (label, src, sev) =>
      { pass := false, reason := label ++ ": matches " ++ src, severity := sev }
    | none =>
      { pass := true, reason := "No dangerous system commands detected", severity := "none" }

/-- Scratch action: `exec` of `rm -rf /` (test fixture shape). -/
def rmRfAction : Action :=
  { type := .system_command, tool := "exec",
    args := .obj [("command", .str "rm -rf /")],
    metadata := { fullText := "rm -rf /", allStrings := ["rm -rf /"] } }

/-- Scratch action: `exec` of `echo hello world` (test fixture shape). -/
def echoAction : Action :=
  { type := .system_command, tool := "exec",
    args := .obj [("command", .str "echo hello world")],
    metadata := { fullText := "echo hello world", allStrings := ["echo hello world"] } }


/-! ### Intent verifier (`src/lib/intent-verifier.js`) -/

/-- Boolean substring containment on character lists (JavaScript
`String.prototype.includes`; the empty needle is contained anywhere). -/
def listIncludes (sub : List Char) : List Char → Bool
  | [] => sub.isEmpty
  | c :: cs => sub.isPrefixOf (c :: cs) || listIncludes sub cs

/-- Containment `s.includes(sub)`. -/
def strIncludes (s sub : String) : Bool := listIncludes sub.toList s.toList

/-- Maximal runs of `\w` characters of a character list (the token
decomposition underlying `/\b[a-z]{4,}\b/g`). -/
def wordRuns : List Char → List String
  | [] => []
  | c :: cs =>
    if isWordChar c then
      String.mk (c :: cs.takeWhile isWordChar) :: wordRuns (cs.dropWhile isWordChar)
    else wordRuns cs
termination_by l => l.length
decreasing_by
  all_goals simp_wf
  all_goals
    have := (List.dropWhile_sublist (l := cs) (p := isWordChar)).length_le
    omega

/-- The stop-word set of `extractIntentKeywords`
(`src/lib/intent-verifier.js` lines 18–23). -/
def stopwords : List String :=
  ["this", "that", "with", "from", "they", "been", "have",
   "what", "when", "where", "which", "their", "about", "would", "could", "should",
   "there", "these", "those", "then", "than", "them", "were", "will", "your",
   "each", "make", "like", "long", "look", "many", "some", "into", "does", "just",
   "over", "such", "take", "also", "back", "after", "only", "come", "made", "find",
   "here", "thing", "very", "still", "know", "need", "want", "please", "help", "can"]

/-- Keyword extraction from user-authored messages
(`src/lib/intent-verifier.js` lines 10–27): join user contents,
lower-case, take the `/\b[a-z]{4,}\b/g` matches (maximal `\w` runs that
are all `[a-z]` and at least four long), drop stop words, deduplicate
keeping first occurrences (insertion-ordered `Set`). -/
def extractIntentKeywords (messages : List Message) : List String :=
  let userMessages := jsToLower (String.intercalate " "
    ((messages.filter fun m => m.role == "user").map fun m => m.content))
  let words := (wordRuns userMessages.toList).filter fun w =>
    decide (w.length ≥ 4) && w.toList.all fun c => 'a' ≤ c && c ≤ 'z'
  (words.filter fun w => !(stopwords.contains w)).eraseDups

/-- Return shape of `heuristicScore`: confidence, method, reason and the
diagnostic keyword fields. -/
structure HeuristicResult where
  confidence : ℚ
  method : String
  reason : String
  matchedKeywords : List String := []
  totalKeywords : Nat := 0
deriving DecidableEq

/-- The heuristic intent scorer (`src/lib/intent-verifier.js`
lines 32–66). -/
def heuristicScore (action : Action) (conversationContext : List Message) :
    HeuristicResult :=
  if conversationContext.isEmpty then
    { confidence := 1/2, method := "heuristic"
      reason := "No conversation context available" }
  else
    let keywords := extractIntentKeywords conversationContext
    if keywords.isEmpty then
      { confidence := 1/2, method := "heuristic"
        reason := "No keywords extracted from conversation" }
    else
      let actionText := jsToLower action.metadata.fullText
      let toolName := jsToLower action.tool
      let matched := keywords.filter fun kw =>
        strIncludes actionText kw || strIncludes toolName kw
      let ratio : ℚ := (matched.length : ℚ) / (min keywords.length 10 : ℚ)
      let confidence := min ((3:ℚ)/10 + ratio * (7/10)) 1
      { confidence := confidence, method := "heuristic"
        reason :=
          if matched.length > 0 then
            "Matched keywords: " ++ String.intercalate ", " (matched.take 5)
          else "No keyword matches between conversation and action"
        matchedKeywords := matched, totalKeywords := keywords.length }

/-- The `response.match(/\{[^}]+\}/)` step of `llmVerify`: leftmost
substring consisting of an opening brace, one or more non-closing-brace
characters, and a closing brace. -/
def braceMatch : List Char → Option (List Char)
  | [] => none
  | c :: rest =>
    if c = '\x7b' then
      let inner := rest.takeWhile (· ≠ '\x7d')
      if inner.isEmpty then braceMatch rest
      else if inner.length < rest.length then some ('\x7b' :: inner ++ ['\x7d'])
      else none
    else braceMatch rest

/-- JSON whitespace skipping. -/
def skipWs (cs : List Char) : List Char :=
  cs.dropWhile fun c => c = ' ' || c = '\t' || c = '\n' || c = '\r'

/-- Parse a JSON string body up to the closing quote.  String escapes are
outside the modelled fragment (none of the development's inputs use
them) and yield a parse error. -/
def parseJsonStringBody (cs : List Char) : Except String (String × List Char) :=
  let body := cs.takeWhile fun c => c ≠ '"' && c ≠ '\\'
  match cs.drop body.length with
  | '"' :: rest => .ok (String.mk body, rest)
  | _ => .error "Unexpected token in JSON string"

/-- Parse an unsigned decimal digit run into its value and length. -/
def parseDigits (cs : List Char) : Option (Nat × Nat) :=
  let ds := cs.takeWhile Char.isDigit
  if ds.isEmpty then none
  else some (ds.foldl (fun acc c => acc * 10 + (c.toNat - '0'.toNat)) 0, ds.length)

/-- Parse a JSON number (integer with optional decimal fraction;
exponents are outside the modelled fragment). -/
def parseJsonNumber (cs : List Char) : Except String (ℚ × List Char) :=
  let (neg, cs1) := match cs with
    | '-' :: rest => (true, rest)
    | _ => (false, cs)
  match parseDigits cs1 with
  | none => .error "Unexpected token in JSON number"
  | some (ip, ilen) =>
    let cs2 := cs1.drop ilen
    match cs2 with
    | '.' :: cs3 =>
      match parseDigits cs3 with
      | none => .error "Unexpected token in JSON number"
      | some (fp, flen) =>
        let q : ℚ := (ip : ℚ) + (fp : ℚ) / ((10 : ℚ) ^ flen)
        .ok (if neg then -q else q, cs3.drop flen)
    | _ => .ok (if neg then -(ip : ℚ) else (ip : ℚ), cs2)

mutual

/-- Parse one JSON value (fuelled recursion; the fuel is the input
length, which bounds the recursion depth). -/
def parseJsonValue : Nat → List Char → Except String (JsValue × List Char)
  | 0, _ => .error "Unexpected end of JSON input"
  | _ + 1, cs =>
    match skipWs cs with
    | '"' :: rest =>
      match parseJsonStringBody rest with
      | .ok (s, rest2) => .ok (.str s, rest2)
      | .error e => .error e
    | 't' :: 'r' :: 'u' :: 'e' :: rest => .ok (.boolean true, rest)
    | 'f' :: 'a' :: 'l' :: 's' :: 'e' :: rest => .ok (.boolean false, rest)
    | 'n' :: 'u' :: 'l' :: 'l' :: rest => .ok (.null, rest)
    | cs2 => parseJsonNumber cs2 |>.map fun (q, rest) => (.num q, rest)

/-- Parse the members of a JSON object after the opening brace (fuelled;
arrays and nested objects cannot occur inside a `/\{[^}]+\}/` match, so
they are outside the modelled fragment). -/
def parseJsonMembers : Nat → List Char →
    Except String (List (String × JsValue) × List Char)
  | 0, _ => .error "Unexpected end of JSON input"
  | fuel + 1, cs =>
    match skipWs cs with
    | '"' :: rest =>
      match parseJsonStringBody rest with
      | .error e => .error e
      | .ok (key, rest2) =>
        match skipWs rest2 with
        | ':' :: rest3 =>
          match parseJsonValue fuel rest3 with
          | .error e => .error e
          | .ok (v, rest4) =>
            match skipWs rest4 with
            | ',' :: rest5 =>
              match parseJsonMembers fuel rest5 with
              | .error e => .error e
              | .ok (fields, rest6) => .ok ((key, v) :: fields, rest6)
            | '\x7d' :: rest5 => .ok ([(key, v)], rest5)
            | _ => .error "Unexpected token in JSON object"
        | _ => .error "Unexpected token in JSON object"
    | _ => .error "Unexpected token in JSON object"

end

/-- Model of `JSON.parse` on the fragment reachable from a `/\{[^}]+\}/` match: a
flat object literal with string / number / boolean / null values. -/
def jsonParse (s : String) : Except String JsValue :=
  match skipWs s.toList with
  | '\x7b' :: rest =>
    match skipWs rest with
    | '\x7d' :: rest2 =>
      if (skipWs rest2).isEmpty then .ok (.obj []) else .error "Unexpected token"
    | _ =>
      match parseJsonMembers (s.length + 1) rest with
      | .error e => .error e
      | .ok (fields, rest2) =>
        if (skipWs rest2).isEmpty then .ok (.obj fields)
        else .error "Unexpected token"
  | _ => .error "Unexpected token"

/-- JavaScript property access `parsed.key` on a parsed JSON value: a
present object member, otherwise `undefined` (`none`).  (The first
binding is taken; the parsed objects of this development have unique
keys, so the duplicate-key corner where `JSON.parse` keeps the last
binding does not arise.) -/
def jsProp (v : JsValue) (key : String) : Option JsValue :=
  match v with
  | .obj fields => (fields.find? fun f => f.1 == key).map (·.2)
  | _ => none

/-- JavaScript `x || 0` coerced to a number, for `parsed.confidence || 0`:
a numeric field is itself (`0` stays `0`), an absent / null / false /
empty-string field is `0`.  (A truthy non-numeric field would flow into
`Math.min` as `NaN`; `NaN` is outside the rational model and no scenario
in this development produces one.) -/
def jsNumOr0 (v : Option JsValue) : ℚ :=
  match v with
  | some (.num n) => n
  | _ => 0

/-- JavaScript `x || d` for `parsed.reason || '…'`: a non-empty string
field is itself, an absent / falsy field is the default.  (A truthy
non-string field would be passed through as-is; outside the modelled
fragment.) -/
def jsStrOrD (v : Option JsValue) (d : String) : String :=
  match v with
  | some (.str s) => if s = "" then d else s
  | _ => d

/-- Intent-verifier instance state (`constructor`, lines 69–73):
`llmFn`, alignment `threshold`, `fallbackToHeuristic`. -/
structure IntentVerifier where
  llmFn : Option (String → Except String String) := none
  threshold : ℚ := 1/2
  fallbackToHeuristic : Bool := true

/-- Constructor options; `fallbackToHeuristic !== false` makes its
default `true`. -/
structure IntentVerifierOptions where
  llmFn : Option (String → Except String String) := none
  threshold : Option ℚ := none
  fallbackToHeuristic : Bool := true

/-- Constructor semantics (lines 69–73): `this.threshold =
options.threshold || 0.5` (absent or `0` falls back to `0.5`). -/
def IntentVerifier.new (options : IntentVerifierOptions) : IntentVerifier :=
  { llmFn := options.llmFn
    threshold :=
      match options.threshold with
      | some t => if t = 0 then 1/2 else t
      | none => 1/2
    fallbackToHeuristic := options.fallbackToHeuristic }

/-- The neutral result returned when the LLM response has no parseable
JSON object (lines 140–145). -/
def llmNeutralFallback : IntentResult :=
  { confidence := 1/2, aligned := true, method := "llm-fallback"
    reason := "Could not parse LLM response, defaulting to neutral" }

/-- Method `IntentVerifier.llmVerify` (lines 104–146): build the bounded
conversation summary and prompt, call the injected model function,
extract the first `{…}` substring, `JSON.parse` it (a parse failure is
caught and yields the neutral fallback), clamp the confidence to `[0,1]`
and compare the unclamped value against the threshold. -/
def IntentVerifier.llmVerify (iv : IntentVerifier)
    (fn : String → Except String String) (action : Action)
    (conversationContext : List Message) : Except String IntentResult :=
  let conversationSummary := String.intercalate "\n"
    ((conversationContext.drop (conversationContext.length - 10)).map fun m =>
      m.role ++ ": " ++ m.content.take 200)
  let prompt :=
    "You are a security verification system. Given the following conversation context and a proposed action, determine if the user would have intended this action.\n\nConversation:\n" ++
    conversationSummary ++
    "\n\nProposed Action:\nTool: " ++ action.tool ++
    "\nArguments: " ++ (jsonStringify2 0 action.args).take 500 ++
    "\nType: " ++ action.type.render ++
    "\n\nRespond with ONLY a JSON object:\n\x7b\"confidence\": 0.0-1.0, \"reason\": \"brief explanation\"\x7d"
  match fn prompt with
  | .error e => .error e
  | .ok response =>
    match braceMatch response.toList with
    | some m =>
      match jsonParse (String.mk m) with
      | .ok parsed =>
        let c := jsNumOr0 (jsProp parsed "confidence")
        .ok { confidence := max 0 (min 1 c)
              aligned := decide (c ≥ iv.threshold)
              method := "llm"
              reason := jsStrOrD (jsProp parsed "reason") "LLM verification complete" }
      | .error _ => .ok llmNeutralFallback
    | none => .ok llmNeutralFallback

/-- Method `IntentVerifier.verify` (lines 79–99): try the LLM path first when an
`llmFn` is configured; on its failure fall back to the heuristic scorer
(attaching the failure reason) when `fallbackToHeuristic` is set,
otherwise re-raise; the heuristic path sets `aligned = confidence >=
threshold`. -/
def IntentVerifier.verify (iv : IntentVerifier) (action : Action)
    (conversationContext : List Message) : Except String IntentResult :=
  match iv.llmFn with
  | some fn =>
    match iv.llmVerify fn action conversationContext with
    | .ok r => .ok r
    | .error e =>
      if iv.fallbackToHeuristic then
        let h := heuristicScore action conversationContext
        .ok { confidence := h.confidence
              aligned := decide (h.confidence ≥ iv.threshold)
              method := h.method, reason := h.reason, llmError := some e }
      else .error e
  | none =>
    let h := heuristicScore action conversationContext
    .ok { confidence := h.confidence
          aligned := decide (h.confidence ≥ iv.threshold)
          method := h.method, reason := h.reason }

/-! ### Sentinel pipeline (`src/lib/sentinel.js`) -/

/-- A registered policy: name plus evaluator; an evaluator that throws is
`Except.error`. -/
structure PolicyEntry where
  name : String
  check : Action → Context → Except String PolicyResult

/-- Sentinel instance state relevant to verification: the ordered policy
list and the optional intent verifier.  (`new Sentinel({useBuiltinPolicies:
false})` starts from an empty list; `addPolicy` appends.) -/
structure SentinelState where
  policies : List PolicyEntry := []
  intentVerifier : Option IntentVerifier := none

/-- Method `Sentinel.addPolicy` (lines 58–64): append, never replace.  (The
runtime type guard `typeof checkFn !== 'function'` cannot fire in the
typed model.) -/
def SentinelState.addPolicy (s : SentinelState) (name : String)
    (checkFn : Action → Context → Except String PolicyResult) : SentinelState :=
  { s with policies := s.policies ++ [{ name := name, check := checkFn }] }

/-- Method `Sentinel.removePolicy` (lines 69–72): delete by name. -/
def SentinelState.removePolicy (s : SentinelState) (name : String) : SentinelState :=
  { s with policies := s.policies.filter fun p => p.name != name }

/-- Step 2 of `Sentinel.verify` (lines 86–108): run every registered
evaluator in order; a failing result is appended to the violation list, a
passing or failing result to the per-policy result list; a throwing
evaluator is caught and converted to a synthetic `high` violation naming
the policy — and pushes no per-policy result. -/
def runPolicies : List PolicyEntry → Action → Context →
    List Violation × List (String × PolicyResult)
  | [], _, _ => ([], [])
  | p :: rest, a, c =>
    let tail := runPolicies rest a c
    match p.check a c with
    | .ok r =>
      ((if r.pass then tail.1
        else { policy := p.name, reason := r.reason, severity := r.severity } :: tail.1),
       (p.name, r) :: tail.2)
    | .error e =>
      ({ policy := p.name, reason := "Policy error: " ++ e, severity := "high" } :: tail.1,
       tail.2)

/-- The neutral intent result substituted when `intentVerifier.verify`
throws (lines 115–122 of `src/lib/sentinel.js`). -/
def errorIntentResult (e : String) : IntentResult :=
  { confidence := 1/2, aligned := true, method := "error"
    reason := "Intent verification error: " ++ e }

/-- Steps 2–5 of `Sentinel.verify` (lines 86–161).  The return type is
`Except String Verdict` so that an uncaught exception would be
observable; the per-policy `try`/`catch` and the intent `try`/`catch`
are the reason every path ends in `.ok`. -/
def sentinelVerify (s : SentinelState) (action : Action) (ctx : Context) :
    Except String Verdict :=
  let res := runPolicies s.policies action ctx
  let violations := res.1
  let policyResults := res.2
  let intentResult : Option IntentResult :=
    match s.intentVerifier with
    | some iv =>
      if violations.length = 0 then
        match iv.verify action action.conversationContext with
        | .ok r => some r
        | .error e => some (errorIntentResult e)
      else none
    | none => none
  let allowed := violations.length = 0
  let hasCritical := violations.any fun v => v.severity == "critical"
  let confidence : ℚ :=
    if allowed then
      match intentResult with
      | some r => r.confidence
      | none => 1
    else if hasCritical then 0
    else 1/5
  .ok { allowed := allowed
        confidence := confidence
        violations := violations
        intent := intentResult
        policyResults := policyResults }

/-! ### Concrete fixtures used by witnesses and counterexamples -/

/-- Decidable equality of `Except` results (componentwise). -/
instance {ε α : Type} [DecidableEq ε] [DecidableEq α] : DecidableEq (Except ε α) := fun a b =>
  match a, b with
  | .ok x, .ok y =>
    if h : x = y then .isTrue (by rw [h]) else .isFalse (by simp [h])
  | .error x, .error y =>
    if h : x = y then .isTrue (by rw [h]) else .isFalse (by simp [h])
  | .ok _, .error _ => .isFalse (by simp)
  | .error _, .ok _ => .isFalse (by simp)

/-- The built-in `systemCommands` evaluator as a registered (non-throwing)
policy entry. -/
def sysCommandsPolicy : PolicyEntry :=
  { name := "systemCommands", check := fun a c => .ok (systemCommands a c) }

/-- A model function that replies with confidence `0` (e.g. an LLM
convinced the action is misaligned). -/
def zeroConfLlmFn : String → Except String String :=
  fun _ => .ok "\x7b\"confidence\": 0, \"reason\": \"no\"\x7d"

/-- Sentinel with no policies and a zero-confidence model function
(`new Sentinel({useBuiltinPolicies: false, llmFn})`). -/
def zeroConfState : SentinelState :=
  { policies := []
    intentVerifier := some { llmFn := some zeroConfLlmFn } }

/-- A model function whose call always rejects. -/
def downLlmFn : String → Except String String := fun _ => .error "LLM down"

/-- Sentinel whose intent verifier has a failing model function and the
heuristic fallback disabled. -/
def llmDownState : SentinelState :=
  { policies := []
    intentVerifier := some
      { llmFn := some downLlmFn, threshold := 1/2, fallbackToHeuristic := false } }

/-- A custom policy whose evaluator always throws. -/
def brokenPolicy : PolicyEntry :=
  { name := "brokenPolicy", check := fun _ _ => .error "kaput" }

/-- Sentinel with a single throwing policy and intent verification off. -/
def brokenPolicyState : SentinelState :=
  { policies := [brokenPolicy], intentVerifier := none }

/-- A custom policy that always fails with `low` severity. -/
def lowFailPolicy : PolicyEntry :=
  { name := "alwaysFail", check := fun _ _ => .ok
      { pass := false, reason := "nope", severity := "low" } }

/-- Sentinel with one always-failing policy and a default intent
verifier. -/
def lowFailState : SentinelState :=
  { policies := [lowFailPolicy], intentVerifier := some {} }

/-- Sentinel with only the `systemCommands` policy and intent
verification disabled. -/
def sysOnlyState : SentinelState :=
  { policies := [sysCommandsPolicy], intentVerifier := none }

/-- A `fetch` action (type `network_request`) whose argument text is a
destructive command. -/
def fetchRmAction : Action :=
  { type := .network_request, tool := "fetch"
    args := .obj [("url", .str "rm -rf /")]
    metadata := { fullText := "rm -rf /", allStrings := ["rm -rf /"] } }

/-- A `browser` action with no argument strings (empty flattened text). -/
def browseAction : Action :=
  { type := .browser_action, tool := "browser" }

/-- A trivial allowed verdict used to build audit fixtures. -/
def dummyVerdict : Verdict :=
  { allowed := true, confidence := 1, violations := [], intent := none
    policyResults := [] }

/-- Audit fixture records. -/
def auditRecA : AuditRecord := { id := "a", timestamp := "t1", verdict := dummyVerdict }

/-- Audit fixture records. -/
def auditRecB : AuditRecord := { id := "b", timestamp := "t2", verdict := dummyVerdict }

/-- Audit fixture records. -/
def auditRecC : AuditRecord := { id := "c", timestamp := "t3", verdict := dummyVerdict }

/-- Audit fixture state at capacity 2 holding two records. -/
def auditTwoState : AuditLogger := { entries := [auditRecA, auditRecB], maxEntries := 2 }

/-- Rate-limit fixture: five calls recorded for session `sess` within the
last second of `now = 200`. -/
def fiveCallStore : RateStore :=
  RateStore.set RateStore.empty "sess"
    [ { timestamp := 100, actionKey := "a1" }, { timestamp := 101, actionKey := "a2" },
      { timestamp := 102, actionKey := "a3" }, { timestamp := 103, actionKey := "a4" },
      { timestamp := 104, actionKey := "a5" } ]

/-- Context carrying only a session id (default rate limits). -/
def sessCtx : Context := { sessionId := some "sess" }

/-- Conversation fixture with one user message. -/
def readmeConv : List Message := [{ role := "user", content := "open the readme file" }]

/-- A `read` action on the readme (tool `read`, flattened text
`readme`). -/
def readmeAction : Action :=
  { type := .file_operation, tool := "read"
    args := .obj [("path", .str "readme")]
    metadata := { fullText := "readme", allStrings := ["readme"] } }

/-- The policy result `systemCommands` produces for `rm -rf /`. -/
def rmRfPolicyResult : PolicyResult :=
  { pass := false
    reason := "Destructive command: matches /rm\\s+(-[a-z]*f[a-z]*\\s+)?(-[a-z]*r[a-z]*\\s+)?\\//i"
    severity := "critical" }

/-- The verdict the `systemCommands`-only sentinel produces for
`rm -rf /`. -/
def rmRfVerdict : Verdict :=
  { allowed := false
    confidence := 0
    violations := [{ policy := "systemCommands", reason := rmRfPolicyResult.reason
                     severity := "critical" }]
    intent := none
    policyResults := [("systemCommands", rmRfPolicyResult)] }

/-! ### Helper lemmas -/

/-- Point lookup after a point update of the rate store. -/
theorem RateStore.set_same (st : RateStore) (k : String) (h : List RateEntry) :
    RateStore.set st k h k = h := by
  simp [RateStore.set]

/-- A `dropWhile` whose predicate fails on every element is the
identity. -/
theorem dropWhile_eq_self_of_all {α : Type} (p : α → Bool) (l : List α)
    (h : ∀ e ∈ l, p e = false) : l.dropWhile p = l := by
  cases l with
  | nil => rfl
  | cons a t =>
    rw [List.dropWhile_cons]
    simp [h a (by simp)]

/-- The per-policy result list accumulated by `runPolicies` is exactly
the registration-ordered list of results of the evaluators that did not
throw. -/
theorem runPolicies_results (policies : List PolicyEntry) (a : Action) (c : Context) :
    (runPolicies policies a c).2 =
      policies.filterMap fun p => ((p.check a c).toOption).map fun r => (p.name, r) := by
  induction policies with
  | nil => rfl
  | cons p rest ih =>
    rw [List.filterMap_cons]
    cases h : p.check a c with
    | ok r => simp [runPolicies, h, ih, Except.toOption]
    | error e => simp [runPolicies, h, ih, Except.toOption]

/-- A throwing evaluator contributes its synthetic `high`-severity
violation to the violation list. -/
theorem runPolicies_error_mem (policies : List PolicyEntry) (a : Action) (c : Context)
    (p : PolicyEntry) (e : String) (hp : p ∈ policies) (he : p.check a c = .error e) :
    ({ policy := p.name, reason := "Policy error: " ++ e, severity := "high" } : Violation) ∈
      (runPolicies policies a c).1 := by
  induction policies with
  | nil => cases hp
  | cons q rest ih =>
    cases hp with
    | head => simp [runPolicies, he]
    | tail _ hrest =>
      have hmem := ih hrest
      cases h : q.check a c with
      | ok r =>
        by_cases hpass : r.pass <;> simp [runPolicies, h, hpass, hmem]
      | error e2 => simp [runPolicies, h, hmem]

/-! ### Claim C9 — audit log capacity bound -/

/-- C9: after every `log` append the number of stored entries is at most
the configured capacity (default 10,000); when an append would exceed
capacity the oldest entries are evicted first and the most recent
entries are kept in order (the stored list is a terminal segment of the
appended list, of length `min (old + 1) capacity`). -/
theorem claim9_audit_capacity (st : AuditLogger) (record : AuditRecord)
    (h : 1 ≤ st.maxEntries) :
    (st.log record).entries.length ≤ st.maxEntries ∧
    (st.log record).entries.length = min (st.entries.length + 1) st.maxEntries ∧
    (∃ k, (st.log record).entries = (st.entries ++ [record]).drop k) ∧
    (AuditLogger.new {}).maxEntries = 10000 := by
  have hlen : (st.entries ++ [record]).length = st.entries.length + 1 := by simp
  refine ⟨?_, ?_, ?_, rfl⟩
  · simp only [AuditLogger.log]
    split
    · split
      · omega
      · rw [List.length_drop]; omega
    · next hle => omega
  · simp only [AuditLogger.log]
    split
    · split
      · omega
      · rw [List.length_drop]; omega
    · next hle => simp at hle; omega
  · simp only [AuditLogger.log]
    split
    · split
      · exact ⟨0, by simp⟩
      · exact ⟨(st.entries ++ [record]).length - st.maxEntries, rfl⟩
    · exact ⟨0, by simp⟩

/-- C9 witness: logging a third record into a capacity-2 log keeps two
entries, the most recent ones. -/
theorem claim9_witness :
    (auditTwoState.log auditRecC).entries.length ≤ auditTwoState.maxEntries ∧
    (auditTwoState.log auditRecC).entries.length =
      min (auditTwoState.entries.length + 1) auditTwoState.maxEntries ∧
    (∃ k, (auditTwoState.log auditRecC).entries =
      (auditTwoState.entries ++ [auditRecC]).drop k) ∧
    (AuditLogger.new {}).maxEntries = 10000 :=
  claim9_audit_capacity auditTwoState auditRecC (by decide)

/-! ### Claim C7 — rate limiter -/

/-- C7: once `maxCallsPerSecond` calls have passed (been recorded) for a
key within the last second, the next call with that key is rejected and
is not appended to the per-key history; resetting the limiter clears all
history, after which a call passes again (for positive limits). -/
theorem claim7_rate_limit (a : Action) (ctx : Context) (store : RateStore) (now : Nat)
    (hstable : ∀ e ∈ store (rateKey ctx), now - e.timestamp ≤ 60000)
    (hcount : (mergeLimits ctx.rateLimits).maxCallsPerSecond ≤
      ((store (rateKey ctx)).filter fun e => now - e.timestamp < 1000).length) :
    (rateLimit a ctx store now).1.pass = false ∧
    (rateLimit a ctx store now).2 (rateKey ctx) = store (rateKey ctx) ∧
    (∀ a2 ctx2 now2, 0 < (mergeLimits ctx2.rateLimits).maxCallsPerMinute →
      0 < (mergeLimits ctx2.rateLimits).maxCallsPerSecond →
      0 < (mergeLimits ctx2.rateLimits).maxIdenticalCalls →
      0 < (mergeLimits ctx2.rateLimits).burstMax →
      (rateLimit a2 ctx2 (rateLimitReset store) now2).1.pass = true) := by
  have hprune : (store (rateKey ctx)).dropWhile
      (fun h => now - h.timestamp > 60000) = store (rateKey ctx) :=
    dropWhile_eq_self_of_all _ _ (fun e he => by
      have := hstable e he
      simp only [decide_eq_false_iff_not]
      omega)
  refine ⟨?_, ?_, ?_⟩
  · by_cases h1 : (mergeLimits ctx.rateLimits).maxCallsPerMinute ≤
        (store (rateKey ctx)).length
    · simp [rateLimit, hprune, h1]
    · simp [rateLimit, hprune, h1, hcount]
  · by_cases h1 : (mergeLimits ctx.rateLimits).maxCallsPerMinute ≤
        (store (rateKey ctx)).length
    · simp [rateLimit, hprune, h1, RateStore.set_same]
    · simp [rateLimit, hprune, h1, hcount, RateStore.set_same]
  · intro a2 ctx2 now2 h1 h2 h3 h4
    have n1 : ¬ ((mergeLimits ctx2.rateLimits).maxCallsPerMinute ≤ 0) := by omega
    have n2 : ¬ ((mergeLimits ctx2.rateLimits).maxCallsPerSecond ≤ 0) := by omega
    have n3 : ¬ ((mergeLimits ctx2.rateLimits).maxIdenticalCalls ≤ 0) := by omega
    have n4 : ¬ ((mergeLimits ctx2.rateLimits).burstMax ≤ 0) := by omega
    simp [rateLimit, rateLimitReset, RateStore.empty, n1, n2, n3, n4]

/-- C7 witness: with five recorded calls for `sess` inside the last
second (default limit 5/sec), the sixth call is rejected and the history
is unchanged. -/
theorem claim7_witness :
    (rateLimit echoAction sessCtx fiveCallStore 200).1.pass = false ∧
    (rateLimit echoAction sessCtx fiveCallStore 200).2 (rateKey sessCtx) =
      fiveCallStore (rateKey sessCtx) :=
  ⟨(claim7_rate_limit echoAction sessCtx fiveCallStore 200
      (by decide) (by decide)).1,
   (claim7_rate_limit echoAction sessCtx fiveCallStore 200
      (by decide) (by decide)).2.1⟩

/-! ### Claim C3 — throwing evaluators are caught -/

/-- C3: when a registered policy's evaluator throws on `(action,
context)`, `verify` still returns a Verdict whose violation list carries
the synthetic `high`-severity violation naming that policy, so the
verdict is not allowed. -/
theorem claim3_evaluator_error (s : SentinelState) (a : Action) (ctx : Context)
    (p : PolicyEntry) (e : String) (hp : p ∈ s.policies)
    (he : p.check a ctx = .error e) :
    ∃ v, sentinelVerify s a ctx = .ok v ∧
      ({ policy := p.name, reason := "Policy error: " ++ e, severity := "high" } :
        Violation) ∈ v.violations ∧
      v.allowed = false := by
  have hmem := runPolicies_error_mem s.policies a ctx p e hp he
  refine ⟨_, rfl, ?_, ?_⟩
  · exact hmem
  · show decide ((runPolicies s.policies a ctx).1.length = 0) = false
    have hne : (runPolicies s.policies a ctx).1 ≠ [] := List.ne_nil_of_mem hmem
    simp [List.length_eq_zero, hne]

/-- C3 witness: the always-throwing custom policy produces the synthetic
violation and a blocked verdict. -/
theorem claim3_witness :
    ∃ v, sentinelVerify brokenPolicyState echoAction {} = .ok v ∧
      ({ policy := "brokenPolicy", reason := "Policy error: " ++ "kaput"
         severity := "high" } : Violation) ∈ v.violations ∧
      v.allowed = false :=
  claim3_evaluator_error brokenPolicyState echoAction {} brokenPolicy "kaput"
    (by simp [brokenPolicyState]) rfl

/-! ### Claim C4 — per-policy result list completeness -/

/-- C4 counterexample: with one registered policy whose evaluator
throws, the verdict's `policyResults` list is empty, not one entry per
registered policy. -/
theorem claim4_counterexample :
    (sentinelVerify brokenPolicyState echoAction {}).toOption.map
        (fun v => v.policyResults.length) = some 0 ∧
    brokenPolicyState.policies.length = 1 := by
  with_unfolding_all decide

/-- C4 (amended): `policyResults` carries exactly one entry, in
registration order, for each registered policy whose evaluator did not
throw; a throwing evaluator contributes no `policyResults` entry. -/
theorem claim4_policy_results (s : SentinelState) (a : Action) (ctx : Context)
    (v : Verdict) (h : sentinelVerify s a ctx = .ok v) :
    v.policyResults =
      s.policies.filterMap fun p =>
        ((p.check a ctx).toOption).map fun r => (p.name, r) := by
  simp only [sentinelVerify, Except.ok.injEq] at h
  subst h
  simpa using runPolicies_results s.policies a ctx

/-- C4 witness: the amended statement evaluated on the throwing-policy
fixture (an empty result list for the one registered, throwing
policy). -/
theorem claim4_witness :
    ({ allowed := false, confidence := 1/5
       violations := [{ policy := "brokenPolicy", reason := "Policy error: kaput"
                        severity := "high" }]
       intent := none, policyResults := [] } : Verdict).policyResults =
      brokenPolicyState.policies.filterMap fun p =>
        ((p.check echoAction {}).toOption).map fun r => (p.name, r) :=
  claim4_policy_results brokenPolicyState echoAction {} _ (by with_unfolding_all decide)

/-! ### Claim C5 — intent alignment gating -/

/-- C5: the intent verifier is consulted only when the accumulated
violation list is empty and intent verification is enabled: a verdict
with violations has a `none` intent, and a present intent implies an
empty violation list and an enabled verifier. -/
theorem claim5_intent_gating (s : SentinelState) (a : Action) (ctx : Context)
    (v : Verdict) (h : sentinelVerify s a ctx = .ok v) :
    (v.violations ≠ [] → v.intent = none) ∧
    (v.intent.isSome = true → v.violations = [] ∧ s.intentVerifier.isSome = true) := by
  simp only [sentinelVerify, Except.ok.injEq] at h
  subst h
  constructor
  · intro hne
    have hlen : ¬ ((runPolicies s.policies a ctx).1.length = 0) := by
      simpa [List.length_eq_zero] using hne
    cases hiv : s.intentVerifier with
    | none => simp
    | some iv => simp [hlen]
  · intro hs
    cases hiv : s.intentVerifier with
    | none => simp [hiv] at hs
    | some iv =>
      simp only [hiv] at hs ⊢
      by_cases hlen : (runPolicies s.policies a ctx).1.length = 0
      · exact ⟨List.length_eq_zero.mp hlen, rfl⟩
      · simp [hlen] at hs

/-- C5 witness: with one failing policy and an enabled intent verifier,
the verdict's intent field is `none`. -/
theorem claim5_witness :
    ({ allowed := false, confidence := 1/5
       violations := [{ policy := "alwaysFail", reason := "nope", severity := "low" }]
       intent := none
       policyResults := [("alwaysFail",
         { pass := false, reason := "nope", severity := "low" })] } : Verdict).intent =
      none :=
  (claim5_intent_gating lowFailState echoAction {} _ (by with_unfolding_all decide)).1
    (by decide)

/-! ### Claim C10 — allowed is exactly emptiness of the violation list -/

/-- C10: a verdict's `allowed` flag equals emptiness of its violation
list and does not depend on the intent verifier configuration (so a
misaligned intent can never block). -/
theorem claim10_allowed_independent (s : SentinelState) (a : Action) (ctx : Context)
    (v : Verdict) (h : sentinelVerify s a ctx = .ok v) :
    v.allowed = v.violations.isEmpty ∧
    (∀ iv v2, sentinelVerify { policies := s.policies, intentVerifier := iv } a ctx =
        .ok v2 → v2.allowed = v.allowed) := by
  simp only [sentinelVerify, Except.ok.injEq] at h
  subst h
  constructor
  · show decide ((runPolicies s.policies a ctx).1.length = 0) =
      (runPolicies s.policies a ctx).1.isEmpty
    cases (runPolicies s.policies a ctx).1 <;> simp
  · intro iv v2 h2
    simp only [sentinelVerify, Except.ok.injEq] at h2
    subst h2
    rfl

/-- C10 witness: the zero-confidence-intent fixture is allowed (empty
violation list) even though its intent result is misaligned
(`aligned = false`, confidence `0` below the threshold). -/
theorem claim10_witness :
    ({ allowed := true, confidence := 0, violations := []
       intent := some { confidence := 0, aligned := false, method := "llm", reason := "no" }
       policyResults := [] } : Verdict).allowed =
      (([] : List Violation)).isEmpty :=
  (claim10_allowed_independent zeroConfState echoAction {} _
    (by with_unfolding_all decide)).1

/-! ### Claim C1 — verdict confidence rule -/

/-- C1 (amended): confidence is `0` whenever the verdict is blocked with
a critical violation, `1` whenever it is allowed with no intent check,
and `0.2` whenever it is blocked without a critical violation.  (The
converse of the `0` clause fails: an allowed verdict can carry
confidence `0` from the intent check — see the counterexample.) -/
theorem claim1_confidence_rule (s : SentinelState) (a : Action) (ctx : Context)
    (v : Verdict) (h : sentinelVerify s a ctx = .ok v) :
    (v.allowed = true → v.intent = none → v.confidence = 1) ∧
    (v.allowed = false → (v.violations.any fun x => x.severity == "critical") = true →
      v.confidence = 0) ∧
    (v.allowed = false → (v.violations.any fun x => x.severity == "critical") = false →
      v.confidence = 1/5) := by
  simp only [sentinelVerify, Except.ok.injEq] at h
  subst h
  refine ⟨?_, ?_, ?_⟩
  · intro ha hi
    simp at ha
    simp [ha] at hi ⊢
    simp [hi]
  · intro ha hc
    simp at ha
    simp [ha, hc]
  · intro ha hc
    simp at ha
    simp [ha, hc]

/-- C1 counterexample: with no policies and a model function answering
confidence `0`, the verdict is allowed with confidence `0` and no
critical violation — refuting the claimed "if and only if". -/
theorem claim1_counterexample :
    sentinelVerify zeroConfState echoAction {} =
      .ok { allowed := true, confidence := 0, violations := []
            intent := some { confidence := 0, aligned := false, method := "llm"
                             reason := "no" }
            policyResults := [] } ∧
    ¬ ((0 : ℚ) = 0 ↔ (true = false ∧
        (([] : List Violation).any fun x => x.severity == "critical") = true)) := by
  constructor
  · with_unfolding_all decide
  · with_unfolding_all decide

/-- C1 witness: `rm -rf /` through the `systemCommands`-only sentinel is
blocked with a critical violation and confidence `0`. -/
theorem claim1_witness :
    rmRfVerdict.allowed = false ∧
    (rmRfVerdict.violations.any fun x => x.severity == "critical") = true ∧
    rmRfVerdict.confidence = 0 :=
  ⟨by decide, by decide,
   (claim1_confidence_rule sysOnlyState rmRfAction {} rmRfVerdict
      (by with_unfolding_all decide)).2.1 (by decide) (by decide)⟩

/-! ### Claim C2 — intent verification failure handling -/

/-- C2 (amended): with the heuristic fallback disabled and a throwing
model function, the failure does propagate out of
`IntentVerifier.verify` to its caller — but that caller,
`Sentinel.verify`, catches it and still returns a Verdict whose intent
field is the neutral error fallback, rather than failing. -/
theorem claim2_intent_error_handling (a : Action) (conv : List Message) (e : String)
    (thr : ℚ) :
    (IntentVerifier.verify
        { llmFn := some fun _ => .error e, threshold := thr, fallbackToHeuristic := false }
        a conv = .error e) ∧
    (∀ s ctx, s.intentVerifier = some
        { llmFn := some fun _ => .error e, threshold := thr
          fallbackToHeuristic := false } →
      ∃ v, sentinelVerify s a ctx = .ok v ∧
        ((runPolicies s.policies a ctx).1 = [] →
          v.intent = some (errorIntentResult e))) := by
  have h1 : ∀ cv : List Message, IntentVerifier.verify
      { llmFn := some fun _ => .error e, threshold := thr, fallbackToHeuristic := false }
      a cv = .error e := fun cv => rfl
  refine ⟨h1 conv, ?_⟩
  intro s ctx hiv
  refine ⟨_, rfl, fun hemp => ?_⟩
  have hlen : (runPolicies s.policies a ctx).1.length = 0 := by rw [hemp]; rfl
  simp only [hiv, hlen]
  simp [h1 a.conversationContext]

/-- C2 counterexample: a sentinel whose intent verifier has a throwing
model function and fallback disabled still returns a Verdict (with the
neutral error intent), rather than failing. -/
theorem claim2_counterexample :
    (sentinelVerify llmDownState echoAction {}).toOption.isSome = true ∧
    sentinelVerify llmDownState echoAction {} =
      .ok { allowed := true, confidence := 1/2, violations := []
            intent := some (errorIntentResult "LLM down"), policyResults := [] } := by
  constructor
  · with_unfolding_all decide
  · with_unfolding_all decide

/-- C2 witness: the amended statement at the fixture configuration. -/
theorem claim2_witness :
    IntentVerifier.verify
      { llmFn := some fun _ => .error "LLM down", threshold := 1/2
        fallbackToHeuristic := false }
      echoAction [] = .error "LLM down" :=
  (claim2_intent_error_handling echoAction [] "LLM down" (1/2)).1

/-! ### Claim C6 — systemCommands type restriction -/

/-- C6 counterexample: a `network_request` action whose flattened text is
`rm -rf /` is failed by the `systemCommands` evaluator, although its
type is neither `system_command` nor `tool_call`. -/
theorem claim6_counterexample :
    fetchRmAction.type ≠ .system_command ∧ fetchRmAction.type ≠ .tool_call ∧
    (systemCommands fetchRmAction {}).pass = false := by
  refine ⟨by decide, by decide, by decide⟩

/-- C6 (amended): the type restriction of `systemCommands` only
short-circuits when the flattened text is empty — a non-system action
with empty text passes, and for non-empty text the pattern checks run
regardless of the action's type. -/
theorem claim6_type_restriction (a : Action) (ctx : Context)
    (h1 : a.type ≠ .system_command) (h2 : a.type ≠ .tool_call) :
    (a.metadata.fullText = "" →
      systemCommands a ctx =
        { pass := true, reason := "Not a system command", severity := "none" }) ∧
    (a.metadata.fullText ≠ "" →
      systemCommands a ctx = systemCommands { a with type := .tool_call } ctx) := by
  constructor
  · intro he
    simp [systemCommands, h1, h2, he]
  · intro hne
    simp [systemCommands, h1, h2, hne]

/-- C6 witness: a `browser_action` with no argument text passes the
`systemCommands` evaluator via the early return. -/
theorem claim6_witness :
    systemCommands browseAction {} =
      { pass := true, reason := "Not a system command", severity := "none" } :=
  (claim6_type_restriction browseAction {} (by decide) (by decide)).1 rfl

/-! ### Claim C8 — heuristic intent scorer -/

/-- C8: with no model function configured, `IntentVerifier.verify`
returns the heuristic score: confidence `0.5` when the conversation is
empty or no keywords survive extraction; otherwise `min(0.3 + fraction ×
0.7, 1)` where `fraction` is the number of keywords occurring in the
action's lowered flattened text or tool name over `min(total keywords,
10)`; `aligned` is exactly `confidence ≥ threshold`, and the constructor
default threshold is `0.5`. -/
theorem claim8_heuristic_score (a : Action) (conv : List Message) (iv : IntentVerifier)
    (h : iv.llmFn = none) :
    ∃ r, IntentVerifier.verify iv a conv = .ok r ∧
      ((conv = [] ∨ extractIntentKeywords conv = []) → r.confidence = 1/2) ∧
      (conv ≠ [] → extractIntentKeywords conv ≠ [] →
        r.confidence = min ((3:ℚ)/10 +
          ((((extractIntentKeywords conv).countP fun kw =>
              strIncludes (jsToLower a.metadata.fullText) kw ||
              strIncludes (jsToLower a.tool) kw) : ℚ) /
            (min ((extractIntentKeywords conv).length : ℚ) 10)) * (7/10)) 1) ∧
      r.aligned = decide (r.confidence ≥ iv.threshold) ∧
      (IntentVerifier.new {}).threshold = 1/2 := by
  refine ⟨_, by rw [IntentVerifier.verify, h], ?_, ?_, rfl, rfl⟩
  · intro hor
    rcases hor with hc | hk
    · simp [heuristicScore, hc]
    · by_cases hc : conv = []
      · simp [heuristicScore, hc]
      · simp [heuristicScore, hc, hk, List.isEmpty_iff]
  · intro hc hk
    simp [heuristicScore, hc, hk, List.isEmpty_iff, List.countP_eq_length_filter]

/-- C8 witness: one user message "open the readme file" yields keywords
`open`, `readme`, `file`; a `read` action on `readme` matches one of the
three, so the heuristic path returns the stated formula. -/
theorem claim8_witness :
    ∃ r, IntentVerifier.verify {} readmeAction readmeConv = .ok r ∧
      ((readmeConv = [] ∨ extractIntentKeywords readmeConv = []) → r.confidence = 1/2) ∧
      (readmeConv ≠ [] → extractIntentKeywords readmeConv ≠ [] →
        r.confidence = min ((3:ℚ)/10 +
          ((((extractIntentKeywords readmeConv).countP fun kw =>
              strIncludes (jsToLower readmeAction.metadata.fullText) kw ||
              strIncludes (jsToLower readmeAction.tool) kw) : ℚ) /
            (min ((extractIntentKeywords readmeConv).length : ℚ) 10)) * (7/10)) 1) ∧
      r.aligned = decide (r.confidence ≥ ({} : IntentVerifier).threshold) ∧
      (IntentVerifier.new {}).threshold = 1/2 :=
  claim8_heuristic_score readmeAction readmeConv {} rfl

end Mikoshi
